import Mathlib

set_option maxRecDepth 8192

/-!
Shallow embedding of the structured-logging pipeline of this repository
(`src/models/logger.py`, `src/services/logger_service.py`,
`src/repositories/logger_repository.py`, `src/api/logger_router.py`)
together with theorems settling the frozen claims about it.

Conventions:
* machine-level details are modelled over `Nat`/`Int`/`String`;
* wall-clock reads (`datetime.utcnow()`) are passed in explicitly as a `now`
  argument, so that impure code becomes a pure function of state and clock;
* fallible operations return `Except`; an exception that the Python code
  catches is modelled by pattern matching on the `Except` value;
* a storage-layer fault (`SQLAlchemyError`) is injected through an explicit
  `fail : Bool` argument.
-/

namespace FastapiLogger

/-- The ordered log-level enumeration shared by all variants
(`LogLevel` in the sources). -/
inductive LogLevel
  | debug
  | info
  | warning
  | error
  | critical
deriving DecidableEq, Repr

/-- Numeric severity of a level, as in the Python `logging` module
(`DEBUG=10 ... CRITICAL=50`); ordering defines the gate comparison. -/
def LogLevel.toNat : LogLevel → Nat
  | .debug => 10
  | .info => 20
  | .warning => 30
  | .error => 40
  | .critical => 50

/-- JSON scalar values: the model of caller-supplied field values
(`Dict[str, Any]` restricted to JSON scalars). -/
inductive JPrim
  | jnull
  | jbool (b : Bool)
  | jnum (n : Int)
  | jstr (s : String)
deriving DecidableEq, Repr

/-- Caller-supplied structured fields: an insertion-ordered mapping of string
keys to values, modelling a Python `dict`. -/
abbrev Fields := List (String × JPrim)

/-- JSON string escaping as performed by `json.dumps` for the characters this
model uses. -/
def escChar (c : Char) : String :=
  if c = '"' then "\\\""
  else if c = '\\' then "\\\\"
  else if c = '\n' then "\\n"
  else if c = '\t' then "\\t"
  else if c = '\r' then "\\r"
  else String.singleton c

/-- A JSON string literal, quoted and escaped. -/
def jquote (s : String) : String :=
  "\"" ++ String.join (s.data.map escChar) ++ "\""

/-- `json.dumps` of a scalar value. -/
def JPrim.dumps : JPrim → String
  | .jnull => "null"
  | .jbool true => "true"
  | .jbool false => "false"
  | .jnum n => toString n
  | .jstr s => jquote s

/-- `json.dumps` of a flat JSON object with the default separators
`(", ", ": ")`. -/
def dumpsObj (kvs : Fields) : String :=
  "\x7b" ++ String.intercalate ", " (kvs.map fun p => jquote p.1 ++ ": " ++ p.2.dumps) ++ "\x7d"

/-- Python dict lookup `d.get(k)` over the insertion-ordered association
list. -/
def alookup {α : Type} (k : String) : List (String × α) → Option α
  | [] => none
  | (k', v) :: rest => if k' = k then some v else alookup k rest

/-- Python `d[k] = v`: overwrite the binding in place when the key exists
(keys are unique in a Python dict, and the key keeps its position), append
otherwise. -/
def dictInsert : Fields → String → JPrim → Fields
  | [], k, v => [(k, v)]
  | (k', v') :: rest, k, v =>
      if k' = k then (k', v) :: rest else (k', v') :: dictInsert rest k v

/-- Python `d.update(other)`: assign every binding of `other` in order. -/
def dictUpdate (d : Fields) (kvs : Fields) : Fields :=
  kvs.foldl (fun acc p => dictInsert acc p.1 p.2) d

/-- The last value bound to `k` in `kvs`: the value that survives when the
Python dict holding `kvs` is built or merged. -/
def lookupLast (k : String) : Fields → Option JPrim
  | [] => none
  | (k', v) :: rest =>
      match lookupLast k rest with
      | some w => some w
      | none => if k' = k then some v else none

/-- The attributes of a `logging.LogRecord` that the formatters read.
`message` is the result of `record.getMessage()`; `exc_text` is the rendered
`formatException(record.exc_info)` when `record.exc_info` is set. -/
structure PyLogRecord where
  levelname : String
  name : String
  message : String
  module : String
  funcName : String
  lineno : Nat
  extra_data : Option Fields
  exc_text : Option String
deriving DecidableEq, Repr

namespace Svc

/-- `LogFormatter.format` (src/services/logger_service.py): the dict built
before `json.dumps`. `now` is the string `datetime.utcnow().isoformat()`
returns at render time — a fresh clock read on every render, not a record
attribute. -/
def formatDict (r : PyLogRecord) (now : String) : Fields :=
  let base : Fields :=
    [("timestamp", .jstr now), ("level", .jstr r.levelname), ("logger", .jstr r.name),
     ("message", .jstr r.message), ("module", .jstr r.module),
     ("function", .jstr r.funcName), ("line", .jnum r.lineno)]
  let d1 := match r.extra_data with
    | some kvs => dictUpdate base kvs
    | none => base
  match r.exc_text with
  | some e => dictInsert d1 "exception" (.jstr e)
  | none => d1

/-- `LogFormatter.format`: the rendered text. The near-identical
`StructuredFormatter.format` in src/api/logger_router.py builds the same dict
(it only omits `ensure_ascii=False`, irrelevant over this model's values). -/
def format (r : PyLogRecord) (now : String) : String :=
  dumpsObj (formatDict r now)

end Svc

namespace Repo

/-- The `extra_data` column of a stored row: `NULL`, a JSON text blob, or the
raw empty dict that `LogRepository.update` writes through `setattr` when the
patch sets `extra_data` to a falsy dict. -/
inductive ExtraCol
  | absent
  | json (s : String)
  | rawEmptyDict
deriving DecidableEq, Repr

/-- A persisted `LogEntry` row (src/repositories/logger_repository.py).
Timestamps are abstract instants modelled as `Nat`. -/
structure Row where
  id : Nat
  timestamp : Nat
  level : LogLevel
  message : String
  module : Option String
  function : Option String
  line_number : Option Int
  extra_data : ExtraCol
  created_at : Nat
  updated_at : Option Nat
deriving DecidableEq, Repr

/-- `LogEntryCreate` (repository variant: no validator on `message`). -/
structure Draft where
  level : LogLevel
  message : String
  module : Option String
  function : Option String
  line_number : Option Int
  extra_data : Option Fields
deriving DecidableEq, Repr

/-- The table `log_entries` plus the autoincrement counter the engine keeps
for the primary key. Every row id is assigned from `nextId`. -/
structure Store where
  rows : List Row
  nextId : Nat
deriving DecidableEq, Repr

/-- `create`'s serialization step: `if log_entry.extra_data:` then
`json.dumps` — both `None` and the empty dict are falsy and store `NULL`. -/
def blobOf (e : Option Fields) : ExtraCol :=
  match e with
  | none => .absent
  | some kvs => if kvs.isEmpty then .absent else .json (dumpsObj kvs)

/-- The row `LogRepository.create` inserts for a draft: fresh id,
creation-time `timestamp` and `created_at`, `updated_at` unset. -/
def newRow (st : Store) (d : Draft) (now : Nat) : Row :=
  ⟨st.nextId, now, d.level, d.message, d.module, d.function, d.line_number,
   blobOf d.extra_data, now, none⟩

/-- `LogRepository.create`. `fail` injects a `SQLAlchemyError` at commit: the
session is rolled back (the store is unchanged — no partial write) and a
`RuntimeError` is raised, modelled as `Except.error`. -/
def LogRepository.create (fail : Bool) (st : Store) (d : Draft) (now : Nat) :
    Except String Row × Store :=
  if fail then (.error "Failed to create log entry", st)
  else (.ok (newRow st d now), ⟨st.rows ++ [newRow st d now], st.nextId + 1⟩)

/-- `LogRepository.get_by_id`: `SELECT ... WHERE id == log_id`, first hit. -/
def LogRepository.get_by_id (st : Store) (log_id : Nat) : Option Row :=
  st.rows.find? (fun r => decide (r.id = log_id))

/-- The `ORDER BY timestamp DESC` comparison. -/
def rowGE (a b : Row) : Prop := b.timestamp ≤ a.timestamp

instance : DecidableRel rowGE :=
  fun a b => inferInstanceAs (Decidable (b.timestamp ≤ a.timestamp))

instance : IsTotal Row rowGE := ⟨fun a b => Nat.le_total b.timestamp a.timestamp⟩

instance : IsTrans Row rowGE := ⟨fun _ _ _ h1 h2 => Nat.le_trans h2 h1⟩

/-- `LogRepository.get_all`: `SELECT ... ORDER BY timestamp DESC` with
`OFFSET skip LIMIT limit`. SQL applies the ordering before pagination
regardless of the order the query methods are chained in. -/
def LogRepository.get_all (rows : List Row) (skip limit : Nat) : List Row :=
  ((List.insertionSort rowGE rows).drop skip).take limit

/-- `LogEntryUpdate` under `dict(exclude_unset=True)`: an outer `none` means
the field was not set in the patch. (Explicitly patching a field to Python
`None` is representable for the nullable columns through the inner option;
it is not exercised by any claim for `level`/`message`.) -/
structure Patch where
  level : Option LogLevel
  message : Option String
  module : Option (Option String)
  function : Option (Option String)
  line_number : Option (Option Int)
  extra_data : Option (Option Fields)
deriving DecidableEq, Repr

/-- `update`'s handling of a set `extra_data`: truthy dicts are serialized
with `json.dumps`, falsy values (`None`, the empty dict) are written raw. -/
def setExtra (e : Option Fields) : ExtraCol :=
  match e with
  | none => .absent
  | some kvs => if kvs.isEmpty then .rawEmptyDict else .json (dumpsObj kvs)

/-- The `setattr` loop of `LogRepository.update` over
`log_update.dict(exclude_unset=True)`. -/
def applyPatch (r : Row) (p : Patch) : Row :=
  let r1 := match p.level with | some v => { r with level := v } | none => r
  let r2 := match p.message with | some v => { r1 with message := v } | none => r1
  let r3 := match p.module with | some v => { r2 with module := v } | none => r2
  let r4 := match p.function with | some v => { r3 with function := v } | none => r3
  let r5 := match p.line_number with | some v => { r4 with line_number := v } | none => r4
  match p.extra_data with
  | some v => { r5 with extra_data := setExtra v }
  | none => r5

/-- Replace the row carrying primary key `i` (ids are unique in the table). -/
def replaceById (rows : List Row) (i : Nat) (r' : Row) : List Row :=
  rows.map fun x => if x.id = i then r' else x

/-- `LogRepository.update`: fetch, apply the set fields, stamp `updated_at`
with the current time, commit. Returns `none` when the id is absent. -/
def LogRepository.update (st : Store) (log_id : Nat) (p : Patch) (now : Nat) :
    Option Row × Store :=
  match LogRepository.get_by_id st log_id with
  | none => (none, st)
  | some r =>
      let r' := { applyPatch r p with updated_at := some now }
      (some r', ⟨replaceById st.rows log_id r', st.nextId⟩)

/-- A patch in which no field is set (`LogEntryUpdate()` untouched). -/
def emptyPatch : Patch := ⟨none, none, none, none, none, none⟩

/-- Caller provenance that `_log_to_db` reads off the call stack through
`inspect` (`__name__`, `f_code.co_name`, `f_lineno`), modelled as explicit
input. -/
structure Prov where
  module : Option String
  function : Option String
  line : Option Int
deriving DecidableEq, Repr

/-- `StructuredLogger._log_to_db`: builds a `LogEntryCreate` from the call
arguments and provenance and invokes `repository.create`; every exception is
caught and reported through `self.logger.error` (returned here as
`some message`), never re-raised. -/
def log_to_db (fail : Bool) (st : Store) (lvl : LogLevel) (msg : String)
    (extra : Option Fields) (prov : Prov) (now : Nat) : Store × Option String :=
  match LogRepository.create fail st ⟨lvl, msg, prov.module, prov.function, prov.line, extra⟩ now with
  | (.ok _, st') => (st', none)
  | (.error e, st') => (st', some ("Failed to log to database: " ++ e))

/-- Observable outcome of one emission call: stream-handler writes performed,
resulting store, and the out-of-band failure report (if any). -/
structure EmitResult where
  sinkWrites : Nat
  store : Store
  reported : Option String
deriving DecidableEq, Repr

/-- One level-tagged emission method of the repository `StructuredLogger`:
`self.logger.<level>(message, ...)` writes to the stream handler iff the call
level passes the underlying `logging.Logger`'s configured level `minLevel`,
and then `_log_to_db` is invoked unconditionally — there is no gate in front
of the persistence path. -/
def emitAt (minLevel : Nat) (lvl : LogLevel) (fail : Bool) (msg : String)
    (extra : Option Fields) (prov : Prov) (st : Store) (now : Nat) : EmitResult :=
  let writes := if minLevel ≤ lvl.toNat then 1 else 0
  let res := log_to_db fail st lvl msg extra prov now
  ⟨writes, res.1, res.2⟩

/-- `StructuredLogger.debug`. -/
def StructuredLogger.debug (minLevel : Nat) (fail : Bool) (msg : String)
    (extra : Option Fields) (prov : Prov) (st : Store) (now : Nat) : EmitResult :=
  emitAt minLevel .debug fail msg extra prov st now

/-- `StructuredLogger.info`. -/
def StructuredLogger.info (minLevel : Nat) (fail : Bool) (msg : String)
    (extra : Option Fields) (prov : Prov) (st : Store) (now : Nat) : EmitResult :=
  emitAt minLevel .info fail msg extra prov st now

end Repo

namespace Router

/-- `LogEntryResponse` as held in `LoggerService.log_entries`
(src/api/logger_router.py, in-memory storage). -/
structure MemEntry where
  id : String
  timestamp : Nat
  level : LogLevel
  message : String
  logger_name : String
  extra_data : Option Fields
deriving DecidableEq, Repr

/-- `LogQueryParams` (already range-validated upstream: `limit ∈ [1,1000]`,
`offset ≥ 0`). -/
structure LogQueryParams where
  level : Option LogLevel
  start_time : Option Nat
  end_time : Option Nat
  limit : Nat
  offset : Nat
deriving DecidableEq, Repr

/-- The filter stage of `LoggerService.get_log_entries` before pagination:
the full matching set, in stored (insertion) order. -/
def matchingEntries (entries : List MemEntry) (q : LogQueryParams) : List MemEntry :=
  let f1 := match q.level with
    | some l => entries.filter fun e => decide (e.level = l)
    | none => entries
  let f2 := match q.start_time with
    | some t => f1.filter fun e => decide (t ≤ e.timestamp)
    | none => f1
  match q.end_time with
  | some t => f2.filter fun e => decide (e.timestamp ≤ t)
  | none => f2

/-- `LoggerService.get_log_entries`: filter, then the Python slice
`filtered_entries[offset : offset + limit]`. No sort is applied. -/
def get_log_entries (entries : List MemEntry) (q : LogQueryParams) : List MemEntry :=
  ((matchingEntries entries q).drop q.offset).take q.limit

/-- One combined predicate equivalent to the three sequential filters. -/
def matchesQuery (q : LogQueryParams) (e : MemEntry) : Bool :=
  (match q.level with | some l => decide (e.level = l) | none => true)
  && (match q.start_time with | some t => decide (t ≤ e.timestamp) | none => true)
  && (match q.end_time with | some t => decide (e.timestamp ≤ t) | none => true)

/-- `LoggerConfig` (router variant, pydantic settings). -/
structure RouterConfig where
  log_level : String
  log_file : Option String
  app_name : String
deriving DecidableEq, Repr

/-- The handler state of the router `StructuredLogger`. -/
structure SLogger where
  name : String
  level : String
  log_file : Option String
  handlers_count : Nat
deriving DecidableEq, Repr

/-- `StructuredLogger.__init__` (router variant): always attaches the console
handler; attaches a `FileHandler(log_file)` when `log_file` is truthy, and
opening that file can raise `OSError`, modelled by the `fileOk` oracle. -/
def mkStructuredLogger (fileOk : String → Bool) (name level : String)
    (log_file : Option String) : Except Unit SLogger :=
  match log_file with
  | none => .ok ⟨name, level, none, 1⟩
  | some f =>
      if f = "" then .ok ⟨name, level, some "", 1⟩
      else if fileOk f then .ok ⟨name, level, some f, 2⟩
      else .error ()

/-- `LoggerConfigResponse`. -/
structure ConfigResponse where
  logger_name : String
  log_level : String
  log_file : Option String
  handlers_count : Nat
deriving DecidableEq, Repr

/-- `LoggerService`'s mutable state relevant to reconfiguration. -/
structure SvcState where
  config : RouterConfig
  logger : SLogger
deriving DecidableEq, Repr

/-- `LoggerConfigUpdate`. -/
structure ConfigUpdate where
  log_level : Option String
  log_file : Option String
deriving DecidableEq, Repr

/-- `LoggerService.get_logger_config`. -/
def get_logger_config (st : SvcState) : ConfigResponse :=
  ⟨st.config.app_name, st.config.log_level, st.config.log_file, st.logger.handlers_count⟩

/-- `LoggerService.update_logger_config`: assigns `config.log_level` (and
`setLevel` on the live logger) first, then assigns `config.log_file` and only
afterwards rebuilds the `StructuredLogger`; a rebuild failure propagates
(`Except.error`) after those config fields were already overwritten. -/
def update_logger_config (fileOk : String → Bool) (st : SvcState) (upd : ConfigUpdate) :
    Except Unit ConfigResponse × SvcState :=
  let st1 := match upd.log_level with
    | some lv => ⟨{ st.config with log_level := lv }, { st.logger with level := lv }⟩
    | none => st
  match upd.log_file with
  | none => (.ok (get_logger_config st1), st1)
  | some f =>
      let cfg2 := { st1.config with log_file := some f }
      match mkStructuredLogger fileOk cfg2.app_name cfg2.log_level (some f) with
      | .ok lg => (.ok (get_logger_config ⟨cfg2, lg⟩), ⟨cfg2, lg⟩)
      | .error _ => (.error (), ⟨cfg2, st1.logger⟩)

end Router

namespace Models

/-- Python `str.isspace` characters relevant to `str.strip()` over the ASCII
range (Unicode whitespace is not modelled). -/
def pyIsSpace (c : Char) : Bool :=
  c == ' ' || c == '\t' || c == '\n' || c == '\r' || c == '\x0b' || c == '\x0c'

/-- Python `str.strip()`. -/
def pyStrip (s : String) : String :=
  ⟨((s.data.dropWhile pyIsSpace).reverse.dropWhile pyIsSpace).reverse⟩

/-- `LogEntryCreate.message` validation (src/models/logger.py): pydantic
first enforces `Field(max_length=1000)`, then the custom `validate_message`
validator rejects messages that are empty after stripping and returns the
stripped text as the stored value. -/
def validate_message (m : String) : Except String String :=
  if 1000 < m.length then .error "ensure this value has at most 1000 characters"
  else if pyStrip m = "" then .error "Message cannot be empty"
  else .ok (pyStrip m)

end Models

namespace Fac

/-- A constructed `LoggerService` instance; `instId` is the object identity
(a fresh construction yields a fresh identity). -/
structure Inst where
  instId : Nat
  name : String
  config : Option Fields
deriving DecidableEq, Repr

/-- `LoggerFactory._instances` plus the identity counter. -/
structure Registry where
  instances : List (String × Inst)
  counter : Nat
deriving DecidableEq, Repr

/-- `LoggerFactory.create_logger`: `if name not in cls._instances:` construct
and register; then return `cls._instances[name]`. The `config` argument is
only consulted when constructing a new instance. -/
def create_logger (st : Registry) (name : String) (config : Option Fields) :
    Inst × Registry :=
  match alookup name st.instances with
  | some i => (i, st)
  | none =>
      let i : Inst := ⟨st.counter, name, config⟩
      (i, ⟨st.instances ++ [(name, i)], st.counter + 1⟩)

/-- A sequence of `create_logger` calls. -/
def runCalls (st : Registry) : List (String × Option Fields) → Registry
  | [] => st
  | (n, c) :: rest => runCalls (create_logger st n c).2 rest

/-- At most one registered instance per name. -/
def KeysNodup (st : Registry) : Prop := (st.instances.map Prod.fst).Nodup

end Fac

/-- The stored blob deserializes (via `json.loads`, the library inverse of
`json.dumps`) to exactly the draft's fields: absent fields correspond to a
`NULL` column, present fields to the column holding their `json.dumps`. -/
def Repo.deserializesTo (col : Repo.ExtraCol) (fields : Option Fields) : Prop :=
  match fields with
  | none => col = .absent
  | some kvs => col = .json (dumpsObj kvs)

/-- Rows sorted descending by timestamp (most recent first). -/
def SortedDescRows (l : List Repo.Row) : Prop :=
  l.Pairwise fun a b => b.timestamp ≤ a.timestamp

/-- In-memory entries sorted descending by timestamp (most recent first). -/
def SortedDescEntries (l : List Router.MemEntry) : Prop :=
  l.Pairwise fun a b => b.timestamp ≤ a.timestamp

/-- A concrete well-formed record without caller fields, for the rendering
claims. -/
def rNoFields : PyLogRecord :=
  ⟨"INFO", "app", "hello", "mod", "fn", 12, none, none⟩

/-- A concrete record whose caller-supplied fields collide with the fixed key
`message`. -/
def rCollide : PyLogRecord :=
  ⟨"INFO", "app", "hello", "mod", "fn", 12, some [("message", .jstr "evil")], none⟩

/-- A 1001-character message: longer than the 1000-code-unit bound and not
empty after trimming. -/
def m1001 : String := ⟨List.replicate 1001 'a'⟩

/-- Two in-memory entries appended in chronological order, as
`create_log_entry` stores them. -/
def entryOld : Router.MemEntry := ⟨"id1", 1, .info, "first", "app", none⟩

/-- See `entryOld`; this one is more recent. -/
def entryNew : Router.MemEntry := ⟨"id2", 2, .info, "second", "app", none⟩

/-- An unfiltered query over the full range, within the validated bounds. -/
def qAll : Router.LogQueryParams := ⟨none, none, none, 100, 0⟩

/-- A draft whose fields mapping is present but empty. -/
def dEmptyFields : Repo.Draft := ⟨.info, "hi", none, none, none, some []⟩

/-- A draft with one non-empty field, for the round-trip witness. -/
def dOneField : Repo.Draft :=
  ⟨.error, "boom", some "m", some "f", some 3, some [("code", .jnum 500)]⟩

/-- A stored row used by the update/round-trip witnesses. -/
def rowW : Repo.Row :=
  ⟨1, 5, .warning, "w", none, none, none, .absent, 5, none⟩

/-- A store holding `rowW`, with the autoincrement counter past its id. -/
def storeW : Repo.Store := ⟨[rowW], 2⟩

/-- The registry after a first `create_logger "svc"` call on the empty
registry. -/
def regSvc : Fac.Registry := (Fac.create_logger ⟨[], 0⟩ "svc" none).2

/-- A filesystem oracle on which every file open fails. -/
def noFileOk : String → Bool := fun _ => false

/-- A service state before reconfiguration. -/
def svc0 : Router.SvcState :=
  ⟨⟨"INFO", none, "fastapi-app"⟩, ⟨"fastapi-app", "INFO", none, 1⟩⟩

/-! ## Helper lemmas: Python dict semantics -/

theorem alookup_append_left {α : Type} {k : String} {l l' : List (String × α)} {i : α}
    (h : alookup k l = some i) : alookup k (l ++ l') = some i := by
  induction l with
  | nil => simp [alookup] at h
  | cons p rest ih =>
      obtain ⟨k', v⟩ := p
      by_cases hk : k' = k
      · simpa [alookup, hk] using h
      · simp only [alookup, hk, List.cons_append, if_false] at h ⊢
        exact ih h

theorem alookup_none_notin {α : Type} {k : String} :
    ∀ {l : List (String × α)}, alookup k l = none → ∀ p ∈ l, p.1 ≠ k := by
  intro l
  induction l with
  | nil => intro _ p hp; cases hp
  | cons q rest ih =>
      obtain ⟨k', v⟩ := q
      intro h p hp
      by_cases hk : k' = k
      · simp [alookup, hk] at h
      · simp only [alookup, hk, if_false] at h
        rcases List.mem_cons.mp hp with rfl | hmem
        · exact hk
        · exact ih h p hmem

theorem alookup_dictInsert_self (d : Fields) (k : String) (v : JPrim) :
    alookup k (dictInsert d k v) = some v := by
  induction d with
  | nil => simp [dictInsert, alookup]
  | cons q rest ih =>
      obtain ⟨k', v'⟩ := q
      by_cases hk : k' = k
      · simp [dictInsert, alookup, hk]
      · simp only [dictInsert, hk, if_false, alookup]
        exact ih

theorem alookup_dictInsert_other {k k' : String} {v : JPrim} (hne : k' ≠ k) :
    ∀ d : Fields, alookup k (dictInsert d k' v) = alookup k d := by
  intro d
  induction d with
  | nil => simp [dictInsert, alookup, hne]
  | cons q rest ih =>
      obtain ⟨k₁, v₁⟩ := q
      by_cases h1 : k₁ = k'
      · subst h1
        simp [dictInsert, alookup, hne]
      · simp only [dictInsert, h1, if_false, alookup]
        by_cases h2 : k₁ = k
        · simp [h2]
        · simp only [h2, if_false]
          exact ih

theorem lookupLast_none_notin {k : String} :
    ∀ {kvs : Fields}, lookupLast k kvs = none → ∀ p ∈ kvs, p.1 ≠ k := by
  intro kvs
  induction kvs with
  | nil => intro _ p hp; cases hp
  | cons q rest ih =>
      obtain ⟨k', v⟩ := q
      intro h p hp
      have hrest : lookupLast k rest = none := by
        cases hr : lookupLast k rest with
        | none => rfl
        | some w => simp [lookupLast, hr] at h
      have hk : k' ≠ k := by
        intro hcon
        simp [lookupLast, hrest, hcon] at h
      rcases List.mem_cons.mp hp with rfl | hmem
      · exact hk
      · exact ih hrest p hmem

theorem alookup_dictUpdate_notin {k : String} :
    ∀ (kvs d : Fields), (∀ p ∈ kvs, p.1 ≠ k) →
      alookup k (dictUpdate d kvs) = alookup k d := by
  intro kvs
  induction kvs with
  | nil => intro d _; rfl
  | cons q rest ih =>
      obtain ⟨k', v⟩ := q
      intro d h
      have hk : k' ≠ k := h (k', v) (List.mem_cons_self _ _)
      have hrest : ∀ p ∈ rest, p.1 ≠ k :=
        fun p hp => h p (List.mem_cons_of_mem _ hp)
      simp only [dictUpdate, List.foldl_cons]
      rw [show (rest.foldl (fun acc p => dictInsert acc p.1 p.2) (dictInsert d k' v))
            = dictUpdate (dictInsert d k' v) rest from rfl]
      rw [ih (dictInsert d k' v) hrest]
      exact alookup_dictInsert_other hk d

theorem alookup_dictUpdate_last {k : String} {v : JPrim} :
    ∀ (kvs d : Fields), lookupLast k kvs = some v →
      alookup k (dictUpdate d kvs) = some v := by
  intro kvs
  induction kvs with
  | nil => intro d h; simp [lookupLast] at h
  | cons q rest ih =>
      obtain ⟨k', v'⟩ := q
      intro d h
      simp only [dictUpdate, List.foldl_cons]
      rw [show (rest.foldl (fun acc p => dictInsert acc p.1 p.2) (dictInsert d k' v'))
            = dictUpdate (dictInsert d k' v') rest from rfl]
      cases hr : lookupLast k rest with
      | some w =>
          have hv : w = v := by simpa [lookupLast, hr] using h
          subst hv
          exact ih (dictInsert d k' v') hr
      | none =>
          have hk : k' = k ∧ v' = v := by
            by_cases hcon : k' = k
            · refine ⟨hcon, ?_⟩
              simpa [lookupLast, hr, hcon] using h
            · simp [lookupLast, hr, hcon] at h
          obtain ⟨rfl, rfl⟩ := hk
          rw [alookup_dictUpdate_notin rest (dictInsert d k' v') (lookupLast_none_notin hr)]
          exact alookup_dictInsert_self d k' v'

/-! ## Claim theorems -/

/-- C1: evaluation of the code at the failing input. A repository
`StructuredLogger` whose underlying `logging.Logger` is configured at level
ERROR (40) performs no sink write on `debug("x")` — but it still constructs a
`LogEntryCreate` and invokes `repository.create`, persisting one row, because
`_log_to_db` is called unconditionally after the (gated) stream write. The
claim requires zero persisted rows and no persistence attempt. -/
theorem c1_persists_below_gate :
    (Repo.StructuredLogger.debug 40 false "x" none ⟨none, none, none⟩ ⟨[], 1⟩ 5).sinkWrites = 0
    ∧ (Repo.StructuredLogger.debug 40 false "x" none ⟨none, none, none⟩ ⟨[], 1⟩ 5).store.rows.length
        = 1 := by
  constructor <;> rfl

/-- C2: counterexample to the claim as stated. Two renders of the identical
well-formed record with the same formatter differ, because
`LogFormatter.format` stamps `datetime.utcnow().isoformat()` — the render-time
clock — into the output, so the output is not a function of the record
alone. -/
theorem c2_counterexample :
    Svc.format rNoFields "2024-01-01T00:00:00" ≠ Svc.format rNoFields "2024-01-01T00:00:01" := by
  decide

/-- C2 (amended): rendering is total and deterministic as a function of the
record TOGETHER WITH the render-time clock reading: identical record and
identical render instant give identical text; and the rendered `timestamp`
entry is exactly the render-time clock value (for records without fields or
exception info that could override it). -/
theorem c2_render_deterministic_given_clock :
    (∀ (r : PyLogRecord) (t₁ t₂ : String), t₁ = t₂ → Svc.format r t₁ = Svc.format r t₂)
    ∧ (∀ (r : PyLogRecord) (t : String), r.extra_data = none → r.exc_text = none →
        alookup "timestamp" (Svc.formatDict r t) = some (.jstr t)) := by
  constructor
  · intro r t₁ t₂ h
    rw [h]
  · intro r t h1 h2
    simp [Svc.formatDict, h1, h2, alookup]

/-- C2 witness: the amended theorem applied at a concrete record and
instant. -/
theorem c2_witness :
    Svc.format rNoFields "2024-01-01T00:00:00" = Svc.format rNoFields "2024-01-01T00:00:00"
    ∧ alookup "timestamp" (Svc.formatDict rNoFields "2024-01-01T00:00:00")
        = some (.jstr "2024-01-01T00:00:00") :=
  ⟨c2_render_deterministic_given_clock.1 rNoFields _ _ rfl,
   c2_render_deterministic_given_clock.2 rNoFields _ rfl rfl⟩

/-- C3: counterexample to the claim as stated. When a caller-supplied field
key collides with the fixed key `message`, the rendered output carries the
FIELD's value (`"evil"`), not the fixed key's value (`rCollide.message =
"hello"`): `log_entry.update(record.extra_data)` lets fields overwrite the
fixed keys. -/
theorem c3_counterexample :
    alookup "message" (Svc.formatDict rCollide "t0") = some (.jstr "evil")
    ∧ alookup "message" (Svc.formatDict rCollide "t0") ≠ some (.jstr rCollide.message) := by
  constructor
  · decide
  · decide

/-- C3 (amended): on a key collision the caller-supplied field wins — for
every record (without exception info), every render instant and every field
key, the value the rendered dict carries for that key is the LAST value the
fields mapping binds to it, even when the key is one of the fixed keys. -/
theorem c3_field_overrides_fixed_key :
    ∀ (r : PyLogRecord) (now : String) (kvs : Fields) (k : String) (v : JPrim),
      r.extra_data = some kvs → r.exc_text = none → lookupLast k kvs = some v →
      alookup k (Svc.formatDict r now) = some v := by
  intro r now kvs k v h1 h2 h3
  simp only [Svc.formatDict, h1, h2]
  exact alookup_dictUpdate_last kvs _ h3

/-- C3 witness: the amended theorem applied at the concrete colliding
record. -/
theorem c3_witness :
    alookup "message" (Svc.formatDict rCollide "t1") = some (.jstr "evil") :=
  c3_field_overrides_fixed_key rCollide "t1" [("message", .jstr "evil")] "message"
    (.jstr "evil") rfl rfl (by decide)

/-- The three sequential filters of `get_log_entries` compute exactly the
entries satisfying the combined predicate. -/
theorem matchingEntries_eq_filter (es : List Router.MemEntry) (q : Router.LogQueryParams) :
    Router.matchingEntries es q = es.filter (Router.matchesQuery q) := by
  rcases q with ⟨lv, ts, te, lim, off⟩
  unfold Router.matchingEntries Router.matchesQuery
  cases lv <;> cases ts <;> cases te <;>
    simp [List.filter_filter, List.filter_eq_self, Bool.and_comm, Bool.and_assoc,
      Bool.and_left_comm]

/-- C4: counterexample to the claim as stated. Two matching entries stored in
chronological order (timestamps 1 then 2) are returned by
`LoggerService.get_log_entries` in that stored order — ascending, not sorted
descending by timestamp: the in-memory query applies no sort. -/
theorem c4_counterexample :
    Router.get_log_entries [entryOld, entryNew] qAll = [entryOld, entryNew]
    ∧ ¬ SortedDescEntries [entryOld, entryNew] := by
  constructor
  · decide
  · show ¬ List.Pairwise (fun a b => b.timestamp ≤ a.timestamp) [entryOld, entryNew]
    decide

/-- C4 (amended): `get_log_entries` returns at most `limit` entries and
returns exactly the slice `[offset, offset+limit)` of the full matching set
(the entries satisfying the level/time filters), but in stored insertion
order — it does not sort. The repository path `LogRepository.get_all` does
return at most `limit` rows sorted descending by timestamp. -/
theorem c4_pagination_and_order (es : List Router.MemEntry) (q : Router.LogQueryParams)
    (rows : List Repo.Row) (skip lim : Nat) :
    (Router.get_log_entries es q).length ≤ q.limit
    ∧ Router.get_log_entries es q
        = ((es.filter (Router.matchesQuery q)).drop q.offset).take q.limit
    ∧ (Router.get_log_entries es q).Sublist es
    ∧ (Repo.LogRepository.get_all rows skip lim).length ≤ lim
    ∧ SortedDescRows (Repo.LogRepository.get_all rows skip lim) := by
  refine ⟨List.length_take_le _ _, ?_, ?_, List.length_take_le _ _, ?_⟩
  · rw [Router.get_log_entries, matchingEntries_eq_filter]
  · have hm : (Router.matchingEntries es q).Sublist es := by
      rw [matchingEntries_eq_filter]
      exact List.filter_sublist es
    exact (((List.take_sublist _ _).trans (List.drop_sublist _ _)).trans hm)
  · exact List.Pairwise.sublist ((List.take_sublist _ _).trans (List.drop_sublist _ _))
      (List.sorted_insertionSort Repo.rowGE rows)

/-- C5: counterexample to the claim as stated. A valid draft whose fields
mapping is present but empty (`extra_data = {}`) is a falsy dict, so
`create` stores `NULL` instead of the serialization of the empty mapping,
and the read-back fields are absent rather than exactly equal to the
draft's. -/
theorem c5_counterexample :
    (Repo.LogRepository.create false ⟨[], 1⟩ dEmptyFields 7).1
        = .ok (Repo.newRow ⟨[], 1⟩ dEmptyFields 7)
    ∧ ¬ Repo.deserializesTo (Repo.newRow ⟨[], 1⟩ dEmptyFields 7).extra_data
        dEmptyFields.extra_data := by
  constructor
  · rfl
  · intro h
    simp [Repo.deserializesTo, Repo.newRow, Repo.blobOf, dEmptyFields] at h

/-- C5 (amended): for every store with fresh primary keys and every valid
draft whose fields mapping is absent or non-empty, `create` succeeds and an
immediate `get_by_id` on the returned id yields a stored entry whose
message and level equal the draft's exactly and whose `extra_data` blob
deserializes to exactly the draft's fields. (A present-but-empty fields
mapping is the one exception: it is stored as `NULL` and reads back as
absent fields.) -/
theorem c5_roundtrip (st : Repo.Store) (d : Repo.Draft) (now : Nat)
    (hwf : ∀ r ∈ st.rows, r.id < st.nextId)
    (hne : ∀ kvs, d.extra_data = some kvs → kvs ≠ []) :
    (Repo.LogRepository.create false st d now).1 = .ok (Repo.newRow st d now)
    ∧ Repo.LogRepository.get_by_id (Repo.LogRepository.create false st d now).2
        (Repo.newRow st d now).id = some (Repo.newRow st d now)
    ∧ (Repo.newRow st d now).message = d.message
    ∧ (Repo.newRow st d now).level = d.level
    ∧ Repo.deserializesTo (Repo.newRow st d now).extra_data d.extra_data := by
  refine ⟨rfl, ?_, rfl, rfl, ?_⟩
  · show (st.rows ++ [Repo.newRow st d now]).find?
        (fun r => decide (r.id = (Repo.newRow st d now).id)) = some (Repo.newRow st d now)
    rw [List.find?_append]
    have h1 : st.rows.find? (fun r => decide (r.id = (Repo.newRow st d now).id)) = none := by
      rw [List.find?_eq_none]
      intro x hx
      simp only [decide_eq_true_eq]
      exact Nat.ne_of_lt (hwf x hx)
    rw [h1]
    simp [List.find?]
  · cases he : d.extra_data with
    | none => simp [Repo.deserializesTo, Repo.newRow, Repo.blobOf, he]
    | some kvs =>
        cases kvs with
        | nil => exact absurd rfl (hne [] he)
        | cons p rest => simp [Repo.deserializesTo, Repo.newRow, Repo.blobOf, he]

/-- C5 witness: the amended round-trip applied to a concrete store and a
draft with one field. -/
theorem c5_witness :
    Repo.LogRepository.get_by_id (Repo.LogRepository.create false storeW dOneField 9).2
        (Repo.newRow storeW dOneField 9).id = some (Repo.newRow storeW dOneField 9)
    ∧ Repo.deserializesTo (Repo.newRow storeW dOneField 9).extra_data dOneField.extra_data := by
  have hne : ∀ kvs, dOneField.extra_data = some kvs → kvs ≠ [] := by
    intro kvs h
    injection h with h2
    subst h2
    simp
  have h := c5_roundtrip storeW dOneField 9 (by decide) hne
  exact ⟨h.2.1, h.2.2.2.2⟩

/-- `String.length` over an explicit character list. -/
theorem string_mk_length (l : List Char) : (String.mk l).length = l.length := rfl

/-- Stripping never lengthens a string. -/
theorem pyStrip_length_le (s : String) : (Models.pyStrip s).length ≤ s.length := by
  show (((s.data.dropWhile Models.pyIsSpace).reverse.dropWhile
      Models.pyIsSpace).reverse).length ≤ s.data.length
  rw [List.length_reverse]
  calc ((s.data.dropWhile Models.pyIsSpace).reverse.dropWhile Models.pyIsSpace).length
      ≤ (s.data.dropWhile Models.pyIsSpace).reverse.length :=
        (List.dropWhile_sublist _).length_le
    _ = (s.data.dropWhile Models.pyIsSpace).length := List.length_reverse _
    _ ≤ s.data.length := (List.dropWhile_sublist _).length_le

/-- Stripping a run of `'a'`s changes nothing. -/
theorem pyStrip_replicate_a (n : Nat) :
    Models.pyStrip ⟨List.replicate (n + 1) 'a'⟩ = ⟨List.replicate (n + 1) 'a'⟩ := by
  have hdrop : (List.replicate (n + 1) 'a').dropWhile Models.pyIsSpace
      = List.replicate (n + 1) 'a' := by
    rw [List.replicate_succ, List.dropWhile_cons, if_neg (by decide)]
  show String.mk (((List.replicate (n + 1) 'a').dropWhile Models.pyIsSpace).reverse.dropWhile
      Models.pyIsSpace).reverse = ⟨List.replicate (n + 1) 'a'⟩
  rw [hdrop, List.reverse_replicate, hdrop, List.reverse_replicate]

/-- C6: counterexample to the claim as stated. A message of 1001 `'a'`s is
not empty after trimming, yet record construction fails: pydantic's
`max_length=1000` bound rejects it before the emptiness validator runs, so
"fails iff empty after trimming" does not hold. -/
theorem c6_counterexample :
    (∃ e, Models.validate_message m1001 = .error e) ∧ ¬ Models.pyStrip m1001 = "" := by
  have hlen : m1001.length = 1001 := by
    show (String.mk (List.replicate 1001 'a')).length = 1001
    rw [string_mk_length]
    exact List.length_replicate 1001 'a'
  constructor
  · refine ⟨"ensure this value has at most 1000 characters", ?_⟩
    unfold Models.validate_message
    rw [if_pos (by rw [hlen]; decide)]
  · show ¬ Models.pyStrip ⟨List.replicate (1000 + 1) 'a'⟩ = ""
    rw [pyStrip_replicate_a 1000]
    intro hcon
    have : List.replicate (1000 + 1) 'a' = [] := congrArg String.data hcon
    simp at this

/-- C6 (amended): construction fails with a validation error iff the message
exceeds 1000 code units OR is empty after trimming; when construction
succeeds, the stored message is the trimmed input and its length is at most
1000 code units. -/
theorem c6_validate_characterization (m : String) :
    ((∃ e, Models.validate_message m = .error e)
      ↔ (1000 < m.length ∨ Models.pyStrip m = ""))
    ∧ (∀ v, Models.validate_message m = .ok v →
        v = Models.pyStrip m ∧ v.length ≤ 1000) := by
  constructor
  · constructor
    · rintro ⟨e, he⟩
      unfold Models.validate_message at he
      by_cases h1 : 1000 < m.length
      · exact Or.inl h1
      · rw [if_neg h1] at he
        by_cases h2 : Models.pyStrip m = ""
        · exact Or.inr h2
        · rw [if_neg h2] at he
          cases he
    · intro h
      unfold Models.validate_message
      by_cases h1 : 1000 < m.length
      · rw [if_pos h1]
        exact ⟨_, rfl⟩
      · rw [if_neg h1]
        rcases h with h | h2
        · exact absurd h h1
        · rw [if_pos h2]
          exact ⟨_, rfl⟩
  · intro v hv
    unfold Models.validate_message at hv
    by_cases h1 : 1000 < m.length
    · rw [if_pos h1] at hv
      cases hv
    · rw [if_neg h1] at hv
      by_cases h2 : Models.pyStrip m = ""
      · rw [if_pos h2] at hv
        cases hv
      · rw [if_neg h2] at hv
        injection hv with hv2
        subst hv2
        refine ⟨rfl, ?_⟩
        exact Nat.le_trans (pyStrip_length_le m) (Nat.le_of_not_lt h1)

/-- C6 witness: the amended characterization applied to a concrete message
with surrounding whitespace. -/
theorem c6_witness :
    "hi" = Models.pyStrip "  hi " ∧ "hi".length ≤ 1000 :=
  (c6_validate_characterization "  hi ").2 "hi" rfl

/-- One `create_logger` call never disturbs an existing registration. -/
theorem create_logger_preserves {st : Fac.Registry} {name : String} {i : Fac.Inst}
    (h : alookup name st.instances = some i) (n : String) (c : Option Fields) :
    alookup name (Fac.create_logger st n c).2.instances = some i := by
  unfold Fac.create_logger
  cases hn : alookup n st.instances with
  | some j => simpa [hn] using h
  | none =>
      simp only [hn]
      exact alookup_append_left h

/-- A whole call sequence never disturbs an existing registration. -/
theorem runCalls_preserves {name : String} {i : Fac.Inst} :
    ∀ (calls : List (String × Option Fields)) (st : Fac.Registry),
      alookup name st.instances = some i →
      alookup name (Fac.runCalls st calls).instances = some i := by
  intro calls
  induction calls with
  | nil => intro st h; exact h
  | cons q rest ih =>
      obtain ⟨n, c⟩ := q
      intro st h
      exact ih _ (create_logger_preserves h n c)

/-- C7 (confirmed): the registry holds at most one instance per name. A call
with an already-registered name returns the previously registered instance
unchanged — identity equality, the repeat call's config ignored (it does not
appear in the result) and the registry not mutated; a call with a fresh name
registers exactly one new instance built from the supplied config; key
uniqueness is preserved; and no later call sequence ever replaces a
registered instance. -/
theorem c7_registry (st : Fac.Registry) (name : String) (config : Option Fields) :
    (∀ i, alookup name st.instances = some i →
        Fac.create_logger st name config = (i, st))
    ∧ (alookup name st.instances = none →
        (Fac.create_logger st name config).2.instances
          = st.instances ++ [(name, (Fac.create_logger st name config).1)]
        ∧ (Fac.create_logger st name config).1.config = config)
    ∧ (Fac.KeysNodup st → Fac.KeysNodup (Fac.create_logger st name config).2)
    ∧ (∀ (calls : List (String × Option Fields)) i,
        alookup name st.instances = some i →
        alookup name (Fac.runCalls st calls).instances = some i) := by
  refine ⟨?_, ?_, ?_, fun calls i h => runCalls_preserves calls st h⟩
  · intro i h
    simp [Fac.create_logger, h]
  · intro h
    simp [Fac.create_logger, h]
  · intro hnd
    cases hn : alookup name st.instances with
    | some j => simpa [Fac.create_logger, hn] using hnd
    | none =>
        unfold Fac.KeysNodup at hnd ⊢
        simp only [Fac.create_logger, hn, List.map_append, List.map_cons, List.map_nil]
        rw [List.nodup_append]
        refine ⟨hnd, List.nodup_singleton _, ?_⟩
        intro a ha hb
        rw [List.mem_singleton] at hb
        subst hb
        obtain ⟨p, hp, hpa⟩ := List.mem_map.mp ha
        exact (alookup_none_notin hn p hp) hpa

/-- C7 witness: a repeat call with the registered name `"svc"` and a fresh
config returns the first instance and leaves the registry untouched. -/
theorem c7_witness :
    Fac.create_logger regSvc "svc" (some [("level", JPrim.jnum 10)])
      = (⟨0, "svc", none⟩, regSvc) :=
  (c7_registry regSvc "svc" (some [("level", JPrim.jnum 10)])).1 ⟨0, "svc", none⟩ rfl

/-- C8 (confirmed): when the repository create fails with a storage error at
emission time, the emission call still returns normally: the failure is
caught inside `_log_to_db` and reported out-of-band through the fallback
logger, the error is not propagated, and the store is left exactly in its
pre-call state — no partial row. -/
theorem c8_storage_error_absorbed (minLevel : Nat) (lvl : LogLevel) (msg : String)
    (extra : Option Fields) (prov : Repo.Prov) (st : Repo.Store) (now : Nat) :
    (Repo.emitAt minLevel lvl true msg extra prov st now).store = st
    ∧ (Repo.emitAt minLevel lvl true msg extra prov st now).reported
        = some "Failed to log to database: Failed to create log entry" := by
  constructor <;> rfl

/-- C9: counterexample to the claim as stated. With every file open failing,
a reconfiguration requesting `log_level=ERROR` and `log_file=/bad/path`
fails (the caller is informed), yet the prior config does NOT remain in
effect: both `log_level` and `log_file` were already overwritten. -/
theorem c9_counterexample :
    (Router.update_logger_config noFileOk svc0 ⟨some "ERROR", some "/bad/path"⟩).1
        = .error ()
    ∧ (Router.update_logger_config noFileOk svc0 ⟨some "ERROR", some "/bad/path"⟩).2.config
        ≠ svc0.config := by
  constructor
  · rfl
  · decide

/-- C9 (amended): `update_logger_config` is not atomic. When the logger
rebuild for a (non-empty) new `log_file` fails, the caller is informed of
the failure, but the config's `log_level` and `log_file` already carry the
requested new values (and the previous logger object is kept). -/
theorem c9_config_mutated_on_failed_rebuild (fileOk : String → Bool)
    (st : Router.SvcState) (lv f : String) (hne : f ≠ "") (hfail : fileOk f = false) :
    Router.update_logger_config fileOk st ⟨some lv, some f⟩
      = (.error (), ⟨⟨lv, some f, st.config.app_name⟩, { st.logger with level := lv }⟩) := by
  unfold Router.update_logger_config Router.mkStructuredLogger
  simp [hne, hfail]

/-- C9 witness: the amended theorem applied at a concrete failing path. -/
theorem c9_witness :
    Router.update_logger_config noFileOk svc0 ⟨some "ERROR", some "/x"⟩
      = (.error (), ⟨⟨"ERROR", some "/x", "fastapi-app"⟩,
          ⟨"fastapi-app", "ERROR", none, 1⟩⟩) :=
  c9_config_mutated_on_failed_rebuild noFileOk svc0 "ERROR" "/x" (by decide) rfl

/-- C10 (confirmed): updating an existing entry with a patch in which no
field is set returns the entry with every stored column — level, message,
module, function, line_number, extra_data, timestamp, created_at —
unchanged, while `updated_at` is nevertheless set to the current time, and
the stored row is replaced by that same stamped row. -/
theorem c10_empty_patch_touch (st : Repo.Store) (log_id now : Nat) (r : Repo.Row)
    (h : Repo.LogRepository.get_by_id st log_id = some r) :
    Repo.LogRepository.update st log_id Repo.emptyPatch now
      = (some { r with updated_at := some now },
         ⟨Repo.replaceById st.rows log_id { r with updated_at := some now }, st.nextId⟩)
    ∧ ({ r with updated_at := some now }).level = r.level
    ∧ ({ r with updated_at := some now }).message = r.message
    ∧ ({ r with updated_at := some now }).module = r.module
    ∧ ({ r with updated_at := some now }).function = r.function
    ∧ ({ r with updated_at := some now }).line_number = r.line_number
    ∧ ({ r with updated_at := some now }).extra_data = r.extra_data
    ∧ ({ r with updated_at := some now }).timestamp = r.timestamp
    ∧ ({ r with updated_at := some now }).created_at = r.created_at
    ∧ ({ r with updated_at := some now }).updated_at = some now := by
  refine ⟨?_, rfl, rfl, rfl, rfl, rfl, rfl, rfl, rfl, rfl⟩
  unfold Repo.LogRepository.update
  rw [h]
  rfl

/-- C10 witness: the theorem applied to a concrete one-row store. -/
theorem c10_witness :
    Repo.LogRepository.update storeW 1 Repo.emptyPatch 11
      = (some { rowW with updated_at := some 11 },
         ⟨Repo.replaceById storeW.rows 1 { rowW with updated_at := some 11 }, storeW.nextId⟩) :=
  (c10_empty_patch_touch storeW 1 11 rowW rfl).1

end FastapiLogger
